import Mathlib

/-!
Verification of the elementum catalog-access core: the cache-aside fetchers of
the `trakt` package (`movies.go` and the shows file), the TMDB request wrapper
(`tmdb.go`), and the provider scatter/gather dispatcher (`providers`).

Each Go function is embedded as a pure Lean function.  Mutable state (the
durable cache store, the provider callback registry) is passed explicitly and
returned in an output record; network calls are modelled by an explicit
upstream-outcome argument (transport failure, or a status code together with
the result of unmarshalling the body).  Machine integers are modelled as `Int`
(Go ints never approach overflow here); `time.Time` values are modelled as
`Nat` instants.
-/

namespace Elementum

/-- Instants, standing in for `time.Time` (comparison and equality only). -/
abbrev Time := Nat

/-- Modelled from the spec: the `cache` package's DBStore ("a durable
key-value store with per-entry expiry; `get` on an expired entry behaves as
not-found; expiry is assigned at write time as now+TTL").  The store maps a
key to a value and its expiry instant. -/
structure CacheStore (κ : Type) (α : Type) where
  lookup : κ → Option (α × Time)

/-- Modelled from the spec: `cacheStore.Get(key, &v)` reports an error on a
missing or expired entry, and fills `v` on a hit. -/
def CacheStore.get (s : CacheStore κ α) (now : Time) (key : κ) : Option α :=
  match s.lookup key with
  | some (v, expiry) => if now < expiry then some v else none
  | none => none

/-- Modelled from the spec: `cacheStore.Set(key, v, ttl)` stores `v` under
`key` with expiry `now + ttl`. -/
def CacheStore.set [DecidableEq κ] (s : CacheStore κ α) (now : Time) (key : κ)
    (v : α) (ttl : Time) : CacheStore κ α :=
  ⟨fun k => if k = key then some (v, now + ttl) else s.lookup k⟩

/-- A store with no entries. -/
def CacheStore.empty : CacheStore κ α := ⟨fun _ => none⟩

@[simp] theorem CacheStore.lookup_set [DecidableEq κ] (s : CacheStore κ α)
    (now : Time) (key : κ) (v : α) (ttl : Time) (k : κ) :
    (s.set now key v ttl).lookup k =
      if k = key then some (v, now + ttl) else s.lookup k := rfl

@[simp] theorem CacheStore.get_set_self [DecidableEq κ] (s : CacheStore κ α)
    (now : Time) (key : κ) (v : α) (ttl : Time) (t : Time) :
    (s.set now key v ttl).get t key = if t < now + ttl then some v else none := by
  simp [CacheStore.get, CacheStore.set]

theorem CacheStore.get_set_ne [DecidableEq κ] (s : CacheStore κ α)
    (now : Time) (key : κ) (v : α) (ttl : Time) (t : Time) (k : κ) (h : k ≠ key) :
    (s.set now key v ttl).get t k = s.get t k := by
  simp [CacheStore.get, CacheStore.set, h]

@[simp] theorem CacheStore.get_empty (t : Time) (k : κ) :
    (CacheStore.empty : CacheStore κ α).get t k = none := rfl

/-- Outcome of one trakt upstream call (`Get` / `GetWithAuth` return a
`napping.Response` and an error).  `failure` is a transport-level error
(`err != nil`); `ok status decoded itemCount` is a response carrying the HTTP
status, the result of unmarshalling its body into the target shape (`none`
when decoding fails, leaving the Go variable at its zero value), and the
`X-Pagination-Item-Count` header decoded by `getPagination`. -/
inductive TraktResult (α : Type) where
  | failure
  | ok (status : Nat) (decoded : Option α) (itemCount : Int)

/-- Errors produced by the trakt fetchers, mirroring the `error` values
returned in `movies.go` and the shows file. -/
inductive TraktError where
  | notAuthorized
  | transport
  | badStatus (code : Nat)
  | atoi
  | decodeFailure
deriving DecidableEq

/-- Identifier record of a trakt entity (`IDs` struct, the fields this core
reads). -/
structure Ids where
  Trakt : Int
  TMDB : Int
deriving DecidableEq

/-- Trakt movie entity (payload fields are opaque to the cache-aside logic;
the fields the embedded functions read are kept). -/
structure Movie where
  Title : String
  Year : Int
deriving DecidableEq

/-- The `Movies` container (`type Movies struct { Movie *Movie ... }`),
the list-item wrapper used by the paginated movie endpoints. -/
structure Movies where
  Movie : Option Movie
deriving DecidableEq

/-- Trakt show entity (the fields the embedded functions read). -/
structure Show where
  Title : String
  IDs : Ids
deriving DecidableEq

/-- The `Shows` container wrapping a show in list responses. -/
structure Shows where
  Show : Option Show
deriving DecidableEq

/-- A `WatchlistMovie` container wrapping the movie (`watchlist-item wraps
entity` pattern). -/
structure WatchlistMovie where
  Movie : Option Movie
deriving DecidableEq

/-- A calendar item wrapping a show. -/
structure CalendarShow where
  Show : Option Show
deriving DecidableEq

/-- A calendar item wrapping a movie. -/
structure CalendarMovie where
  Movie : Option Movie
deriving DecidableEq

/-- Trakt episode (the fields read by the progress synchronizer). -/
structure Episode where
  Season : Int
  Number : Int
deriving DecidableEq

/-- An entry of the watched-shows list: the show and its authoritative
`last_watched_at` timestamp. -/
structure WatchedShow where
  Show : Show
  LastWatchedAt : Time
deriving DecidableEq

/-- The per-show watched-progress payload; the synchronizer only reads its
`NextEpisode` pointer. -/
structure WatchedProgressShow where
  NextEpisode : Option Episode
deriving DecidableEq

/-- A result row of `WatchedShowsProgress`: the show and its next episode. -/
structure ProgressShow where
  Show : Show
  Episode : Option Episode
deriving DecidableEq

/-- Modelled from the spec: the `cache` package's key format strings are not
part of the excerpted source; the spec requires deterministic keys built from
the resource kind and the identifiers.  Each format is modelled as a
kind-scoped prefix followed by the identifiers. -/
def TraktMovieKey (ID : String) : String := "com.trakt.movie." ++ ID

/-- Modelled from the spec: key for a show fetched by trakt id. -/
def TraktShowKey (ID : String) : String := "com.trakt.show." ++ ID

/-- Modelled from the spec: key for one translated page of a top-movies
category listing; the page argument is the translated upstream page. -/
def TraktMoviesByCategoryKey (topCategory page : String) : String :=
  "com.trakt.movies.category." ++ topCategory ++ "." ++ page

/-- Modelled from the spec: kind-scoped totals key for a top-movies
category (independent of the page). -/
def TraktMoviesByCategoryTotalKey (topCategory : String) : String :=
  "com.trakt.movies.category.total." ++ topCategory

/-- Modelled from the spec: key for one translated page of a top-shows
category listing. -/
def TraktShowsByCategoryKey (topCategory page : String) : String :=
  "com.trakt.shows.category." ++ topCategory ++ "." ++ page

/-- Modelled from the spec: kind-scoped totals key for a top-shows category. -/
def TraktShowsByCategoryTotalKey (topCategory : String) : String :=
  "com.trakt.shows.category.total." ++ topCategory

/-- Modelled from the spec: key for the movies watchlist. -/
def TraktMoviesWatchlistKey : String := "com.trakt.movies.watchlist"

/-- Modelled from the spec: key for one translated page of a shows calendar. -/
def TraktShowsCalendarKey (endPointKey page : String) : String :=
  "com.trakt.shows.calendar." ++ endPointKey ++ "." ++ page

/-- Modelled from the spec: totals key for a shows calendar endpoint. -/
def TraktShowsCalendarTotalKey (endPointKey : String) : String :=
  "com.trakt.shows.calendar.total." ++ endPointKey

/-- Modelled from the spec: per-kind TTLs (`cache.Trakt...Expire` constants,
defined in the cache package outside the excerpted source).  The exact
durations are irrelevant to the claims; each is some positive duration. -/
def TraktMovieExpire : Time := 86400

/-- Modelled from the spec: TTL for a cached show. -/
def TraktShowExpire : Time := 86400

/-- Modelled from the spec: TTL for a cached top-movies page. -/
def TraktMoviesByCategoryExpire : Time := 86400

/-- Modelled from the spec: TTL for cached top-movies totals. -/
def TraktMoviesByCategoryTotalExpire : Time := 86400

/-- Modelled from the spec: TTL for a cached top-shows page. -/
def TraktShowsByCategoryExpire : Time := 86400

/-- Modelled from the spec: TTL for cached top-shows totals. -/
def TraktShowsByCategoryTotalExpire : Time := 86400

/-- Modelled from the spec: TTL for the cached movies watchlist. -/
def TraktMoviesWatchlistExpire : Time := 86400

/-- Modelled from the spec: TTL for a cached shows-calendar page. -/
def TraktShowsCalendarExpire : Time := 86400

/-- Modelled from the spec: TTL for cached shows-calendar totals. -/
def TraktShowsCalendarTotalExpire : Time := 86400

/-- Modelled from the spec: TTL for the per-show `last_watched_at` snapshot. -/
def TraktWatchedShowsProgressWatchedExpire : Time := 86400

/-- Modelled from the spec: TTL for the per-show derived progress entry. -/
def TraktWatchedShowsProgressExpire : Time := 86400

/-- Output of `GetMovie`: the returned movie pointer (`none` is a nil
pointer), the cache store after the call, and whether an upstream request was
issued. -/
structure GetMovieOut where
  movie : Option Movie
  store : CacheStore String (Option Movie)
  upstreamCalled : Bool

/-- Embedding of `GetMovie` (`trakt/movies.go:103`).  On a cache miss it
calls `Get`; when `err != nil` it only logs and notifies (no `return`), then
unconditionally unmarshals and `Set`s the resulting `movie` — there is no
HTTP-status check on this path. -/
def GetMovie (now : Time) (ID : String) (upstream : TraktResult Movie)
    (cacheStore : CacheStore String (Option Movie)) : GetMovieOut :=
  let key := TraktMovieKey ID
  match cacheStore.get now key with
  | some movie => ⟨movie, cacheStore, false⟩
  | none =>
    let movie : Option Movie :=
      match upstream with
      | .failure => none
      | .ok _ decoded _ => decoded
    ⟨movie, cacheStore.set now key movie TraktMovieExpire, true⟩

/-- Output of `GetShow`. -/
structure GetShowOut where
  result : Option Show
  store : CacheStore String (Option Show)
  upstreamCalled : Bool

/-- Embedding of `GetShow` (shows file, line 118).  Unlike `GetMovie`, the
transport-error branch returns immediately without touching the cache; the
HTTP status is still never checked, so any response (including 404) is
unmarshalled and cached. -/
def GetShow (now : Time) (ID : String) (upstream : TraktResult Show)
    (cacheStore : CacheStore String (Option Show)) : GetShowOut :=
  let key := TraktShowKey ID
  match cacheStore.get now key with
  | some s => ⟨s, cacheStore, false⟩
  | none =>
    match upstream with
    | .failure => ⟨none, cacheStore, true⟩
    | .ok _ decoded _ => ⟨decoded, cacheStore.set now key decoded TraktShowExpire, true⟩

/-- Output of `WatchlistMovies`. -/
structure WatchlistMoviesOut where
  movies : List Movies
  err : Option TraktError
  store : CacheStore String (List Movies)
  upstreamCalled : Bool

/-- Embedding of `WatchlistMovies` (`trakt/movies.go:266`).  `authorized`
models the `Authorized()` guard; when `isUpdateNeeded` is false a cache hit is
returned immediately.  On success the watchlist containers are flattened into
`Movies` items and the listing is cached. -/
def WatchlistMovies (now : Time) (authorized isUpdateNeeded : Bool)
    (upstream : TraktResult (List WatchlistMovie))
    (cacheStore : CacheStore String (List Movies)) : WatchlistMoviesOut :=
  if !authorized then ⟨[], some .notAuthorized, cacheStore, false⟩
  else
    match (if isUpdateNeeded then none else cacheStore.get now TraktMoviesWatchlistKey) with
    | some ms => ⟨ms, none, cacheStore, false⟩
    | none =>
      match upstream with
      | .failure => ⟨[], some .transport, cacheStore, true⟩
      | .ok status decoded _ =>
        if status ≠ 200 then ⟨[], some (.badStatus status), cacheStore, true⟩
        else
          let watchlist := decoded.getD []
          let movies := watchlist.map (fun wm => Movies.mk wm.Movie)
          ⟨movies, none,
            cacheStore.set now TraktMoviesWatchlistKey movies TraktMoviesWatchlistExpire, true⟩

/-- Parses a run of decimal digits, accumulator style; fails on any
non-digit. -/
def parseDigits : List Char → Nat → Option Nat
  | [], acc => some acc
  | c :: rest, acc =>
    if '0' ≤ c ∧ c ≤ '9' then parseDigits rest (acc * 10 + (c.toNat - '0'.toNat))
    else none

/-- Modelled from the spec: Go's `strconv.Atoi` (standard library, outside the
excerpted source): an optional sign followed by at least one decimal digit;
anything else is an error (`none`). -/
def Atoi (s : String) : Option Int :=
  match s.data with
  | [] => none
  | '-' :: rest =>
    if rest.isEmpty then none else (parseDigits rest 0).map (fun n => -(n : Int))
  | '+' :: rest =>
    if rest.isEmpty then none else (parseDigits rest 0).map (fun n => (n : Int))
  | cs => (parseDigits cs 0).map (fun n => (n : Int))

/-- The client-page to upstream-page translation shared by `TopMovies`,
`TopShows`, `CalendarMovies` and `CalendarShows`:
`page = strconv.Itoa((pageInt-1)*resultsPerPage/limit + 1)` where
`limit = resultsPerPage * PagesAtOnce`.  Go's integer division truncates
toward zero, which is `Int.tdiv`. -/
def upstreamPage (pageInt resultsPerPage limit : Int) : Int :=
  Int.tdiv ((pageInt - 1) * resultsPerPage) limit + 1

/-- Body of a top-listing response, decoded into the two shapes the code
tries: `[]*Movie` for the "popular"/"recommendations" categories and
`[]*Movies` for the rest.  Each field is `none` when unmarshalling into that
shape fails. -/
structure TopMoviesBody where
  movieList : Option (List Movie)
  moviesList : Option (List Movies)

/-- Body of a top-shows response (`[]*Show` or `[]*Shows`). -/
structure TopShowsBody where
  showList : Option (List Show)
  showsList : Option (List Shows)

/-- Output of `TopMovies`: the three return values, both cache stores, whether
upstream was queried, the translated page sent upstream (`none` when no
upstream request was made), and the page cache key used (`none` when `Atoi`
failed). -/
structure TopMoviesOut where
  movies : List Movies
  total : Int
  err : Option TraktError
  store : CacheStore String (List Movies)
  totalStore : CacheStore String Int
  upstreamCalled : Bool
  sentPage : Option Int
  usedKey : Option String

/-- Embedding of `TopMovies` (`trakt/movies.go:189`).  `pagesAtOnce` models
the package constant `PagesAtOnce` (defined outside the excerpted source).
The requested page is translated via `upstreamPage`; the cache key uses the
translated page.  The refresh branch is taken when the page-cache get fails
or yields an empty list; on success both the page entry and the kind-scoped
totals entry are written. -/
def TopMovies (now : Time) (topCategory page : String)
    (resultsPerPage pagesAtOnce : Int)
    (upstream : TraktResult TopMoviesBody)
    (cacheStore : CacheStore String (List Movies))
    (totalCacheStore : CacheStore String Int) : TopMoviesOut :=
  let limit := resultsPerPage * pagesAtOnce
  match Atoi page with
  | none => ⟨[], 0, some .atoi, cacheStore, totalCacheStore, false, none, none⟩
  | some pageInt =>
    let upPage := upstreamPage pageInt resultsPerPage limit
    let page2 := toString upPage
    let key := TraktMoviesByCategoryKey topCategory page2
    let totalKey := TraktMoviesByCategoryTotalKey topCategory
    let refresh : List Movies → TopMoviesOut := fun moviesInit =>
      match upstream with
      | .failure =>
        ⟨moviesInit, 0, some .transport, cacheStore, totalCacheStore, true, some upPage, some key⟩
      | .ok status bodyOpt itemCount =>
        if status ≠ 200 then
          ⟨moviesInit, 0, some (.badStatus status), cacheStore, totalCacheStore, true,
            some upPage, some key⟩
        else
          let body := bodyOpt.getD ⟨none, none⟩
          let movies :=
            if topCategory = "popular" ∨ topCategory = "recommendations" then
              (body.movieList.getD []).map (fun m => Movies.mk (some m))
            else
              body.moviesList.getD moviesInit
          let total := itemCount
          ⟨movies, total, none,
            cacheStore.set now key movies TraktMoviesByCategoryExpire,
            totalCacheStore.set now totalKey total TraktMoviesByCategoryTotalExpire,
            true, some upPage, some key⟩
    match cacheStore.get now key with
    | some ms =>
      if ms.length = 0 then refresh ms
      else
        ⟨ms, (totalCacheStore.get now totalKey).getD (-1), none,
          cacheStore, totalCacheStore, false, none, some key⟩
    | none => refresh []

/-- Output of `TopShows`. -/
structure TopShowsOut where
  shows : List Shows
  total : Int
  err : Option TraktError
  store : CacheStore String (List Shows)
  totalStore : CacheStore String Int
  upstreamCalled : Bool
  sentPage : Option Int
  usedKey : Option String

/-- Embedding of `TopShows` (shows file, line 340).  Identical to `TopMovies`
except that a failed unmarshal in the "popular"/"recommendations" branch is
returned as an error instead of merely logged. -/
def TopShows (now : Time) (topCategory page : String)
    (resultsPerPage pagesAtOnce : Int)
    (upstream : TraktResult TopShowsBody)
    (cacheStore : CacheStore String (List Shows))
    (totalCacheStore : CacheStore String Int) : TopShowsOut :=
  let limit := resultsPerPage * pagesAtOnce
  match Atoi page with
  | none => ⟨[], 0, some .atoi, cacheStore, totalCacheStore, false, none, none⟩
  | some pageInt =>
    let upPage := upstreamPage pageInt resultsPerPage limit
    let page2 := toString upPage
    let key := TraktShowsByCategoryKey topCategory page2
    let totalKey := TraktShowsByCategoryTotalKey topCategory
    let refresh : List Shows → TopShowsOut := fun showsInit =>
      match upstream with
      | .failure =>
        ⟨showsInit, 0, some .transport, cacheStore, totalCacheStore, true, some upPage, some key⟩
      | .ok status bodyOpt itemCount =>
        let body := bodyOpt.getD ⟨none, none⟩
        if status ≠ 200 then
          ⟨showsInit, 0, some (.badStatus status), cacheStore, totalCacheStore, true,
            some upPage, some key⟩
        else if topCategory = "popular" ∨ topCategory = "recommendations" then
          match body.showList with
          | none =>
            ⟨showsInit, 0, some .decodeFailure, cacheStore, totalCacheStore, true,
              some upPage, some key⟩
          | some showList =>
            let shows := showList.map (fun s => Shows.mk (some s))
            ⟨shows, itemCount, none,
              cacheStore.set now key shows TraktShowsByCategoryExpire,
              totalCacheStore.set now totalKey itemCount TraktShowsByCategoryTotalExpire,
              true, some upPage, some key⟩
        else
          let shows := body.showsList.getD showsInit
          ⟨shows, itemCount, none,
            cacheStore.set now key shows TraktShowsByCategoryExpire,
            totalCacheStore.set now totalKey itemCount TraktShowsByCategoryTotalExpire,
            true, some upPage, some key⟩
    match cacheStore.get now key with
    | some ss =>
      if ss.length = 0 then refresh ss
      else
        ⟨ss, (totalCacheStore.get now totalKey).getD (-1), none,
          cacheStore, totalCacheStore, false, none, some key⟩
    | none => refresh []

/-- Replaces every '/' by '.' in a string: `strings.Replace(endPoint, "/",
".", -1)`, character-wise since the pattern is a single character. -/
def endPointKeyOf (endPoint : String) : String :=
  String.mk (endPoint.data.map (fun c => if c = '/' then '.' else c))

/-- Output of `CalendarShows`. -/
structure CalendarShowsOut where
  shows : List CalendarShow
  total : Int
  err : Option TraktError
  store : CacheStore String (List CalendarShow)
  totalStore : CacheStore String Int
  upstreamCalled : Bool
  sentPage : Option Int
  usedKey : Option String

/-- Embedding of `CalendarShows` (shows file, line 589).  Same page
translation as `TopMovies`; the cached branch is taken on any page-cache hit
(no empty-list check here); the refresh branch writes the totals entry and
the page entry on success. -/
def CalendarShows (now : Time) (endPoint page : String)
    (resultsPerPage pagesAtOnce : Int)
    (upstream : TraktResult (List CalendarShow))
    (cacheStore : CacheStore String (List CalendarShow))
    (totalCacheStore : CacheStore String Int) : CalendarShowsOut :=
  let limit := resultsPerPage * pagesAtOnce
  match Atoi page with
  | none => ⟨[], 0, some .atoi, cacheStore, totalCacheStore, false, none, none⟩
  | some pageInt =>
    let upPage := upstreamPage pageInt resultsPerPage limit
    let page2 := toString upPage
    let endPointKey := endPointKeyOf endPoint
    let key := TraktShowsCalendarKey endPointKey page2
    let totalKey := TraktShowsCalendarTotalKey endPointKey
    match cacheStore.get now key with
    | some ss =>
      ⟨ss, (totalCacheStore.get now totalKey).getD (-1), none,
        cacheStore, totalCacheStore, false, none, some key⟩
    | none =>
      match upstream with
      | .failure =>
        ⟨[], 0, some .transport, cacheStore, totalCacheStore, true, some upPage, some key⟩
      | .ok status decoded itemCount =>
        if status ≠ 200 then
          ⟨[], 0, some (.badStatus status), cacheStore, totalCacheStore, true,
            some upPage, some key⟩
        else
          let shows := decoded.getD []
          ⟨shows, itemCount, none,
            cacheStore.set now key shows TraktShowsCalendarExpire,
            totalCacheStore.set now totalKey itemCount TraktShowsCalendarTotalExpire,
            true, some upPage, some key⟩

/-- Response headers, as passed to `rl.CoolDown` (opaque key-value pairs). -/
abbrev Headers := List (String × String)

/-- Outcome of the `napping.Get` call inside `MakeRequest`: transport failure
(`err != nil`) or a response with a status and headers. -/
inductive NappingOutcome where
  | failure
  | ok (status : Nat) (headers : Headers)
deriving DecidableEq

/-- The error values `MakeRequest` can return: one of `util.ErrExceeded`,
`util.ErrNotFound`, `util.ErrHTTP` (a transport error is swallowed by the
closure's fall-through to `ret = nil`). -/
inductive UtilErr where
  | ErrExceeded
  | ErrNotFound
  | ErrHTTP
deriving DecidableEq

/-- Output of `MakeRequest`: the returned error (`none` on success) and the
headers passed to `rl.CoolDown` (`none` when no cooldown was triggered). -/
structure MakeRequestOut where
  ret : Option UtilErr
  coolDownHeaders : Option Headers
deriving DecidableEq

/-- Embedding of `MakeRequest` (`tmdb/tmdb.go:596`).  Inside `rl.Call`:
on a transport error the closure logs and sets `ret = err` but does not
return, and since the status checks are an else-if chain the control falls
through to the final `ret = nil`, so `MakeRequest` returns nil on a
transport error; status 429 triggers `rl.CoolDown(headers)` and returns
`util.ErrExceeded`; status 404 *also* triggers `rl.CoolDown(headers)` and
returns `util.ErrNotFound`; any other non-200 status returns `util.ErrHTTP`
without a cooldown; 200 returns nil. -/
def MakeRequest (resp : NappingOutcome) : MakeRequestOut :=
  match resp with
  | .failure => ⟨none, none⟩
  | .ok status headers =>
    if status = 429 then ⟨some .ErrExceeded, some headers⟩
    else if status = 404 then ⟨some .ErrNotFound, some headers⟩
    else if status ≠ 200 then ⟨some .ErrHTTP, none⟩
    else ⟨none, none⟩

/-- Output of one per-show refresh task of `WatchedShowsProgress`: the
`watchedProgressShow` variable at the end of the task, both cache stores
(the `last_watched_at` snapshot store and the derived-progress store — two
key families of the single DB store, disjoint per the key formats), and
whether the per-show progress endpoint was called. -/
structure ShowTaskOut where
  watchedProgressShow : Option WatchedProgressShow
  watchedCache : CacheStore Int Time
  progressCache : CacheStore Int (Option WatchedProgressShow)
  upstreamCalled : Bool

/-- Embedding of one goroutine body of `WatchedShowsProgress` (shows file,
lines 722-761).  The deferred function always rewrites the snapshot entry
`TraktWatchedShowsProgressWatchedKey` with the show's current
`LastWatchedAt`.  If the cached snapshot equals the current `LastWatchedAt`
and the cached progress entry is readable, it is reused with no upstream
call; otherwise `shows/ID/progress/watched` is fetched, and only on a 200
response is the progress entry overwritten. -/
def showTask (now : Time) (watchedShow : WatchedShow)
    (watchedCache : CacheStore Int Time)
    (progressCache : CacheStore Int (Option WatchedProgressShow))
    (upstream : TraktResult WatchedProgressShow) : ShowTaskOut :=
  let id := watchedShow.Show.IDs.Trakt
  let finish : Option WatchedProgressShow → CacheStore Int (Option WatchedProgressShow) →
      Bool → ShowTaskOut := fun wps pc called =>
    ⟨wps,
      watchedCache.set now id watchedShow.LastWatchedAt TraktWatchedShowsProgressWatchedExpire,
      pc, called⟩
  let reuse : Option (Option WatchedProgressShow) :=
    match watchedCache.get now id with
    | some cachedWatchedAt =>
      if watchedShow.LastWatchedAt = cachedWatchedAt then progressCache.get now id else none
    | none => none
  match reuse with
  | some p => finish p progressCache false
  | none =>
    match upstream with
    | .failure => finish none progressCache true
    | .ok status decoded _ =>
      if status ≠ 200 then finish none progressCache true
      else finish decoded (progressCache.set now id decoded TraktWatchedShowsProgressExpire) true

/-- The guard on the result slot of a per-show task:
`watchedProgressShow != nil && watchedProgressShow.NextEpisode != nil &&
NextEpisode.Number != 0 && NextEpisode.Season != 0`. -/
def validNext (wps : Option WatchedProgressShow) : Bool :=
  match wps with
  | none => false
  | some w =>
    match w.NextEpisode with
    | none => false
    | some ne => ne.Number != 0 && ne.Season != 0

/-- The slot written for one show: `some` of the `ProgressShow` when the
guard passes, otherwise the slot stays nil. -/
def progressSlot (watchedShow : WatchedShow) (wps : Option WatchedProgressShow) :
    Option ProgressShow :=
  if validNext wps then
    some ⟨watchedShow.Show, Option.bind wps (fun w => w.NextEpisode)⟩
  else none

/-- Embedding of the fan-out and gather of `WatchedShowsProgress` (shows
file, lines 717-771), starting from the watched-shows list (the preceding
steps — authorization, activity probe, `WatchedShows` — supply that list).
Each show's task runs against the caches as of the start of the fan-out
(tasks with distinct trakt ids touch disjoint keys and result slots); the
final loop appends the non-nil slots in index order. -/
def WatchedShowsProgress (now : Time) (watchedShows : List WatchedShow)
    (watchedCache : CacheStore Int Time)
    (progressCache : CacheStore Int (Option WatchedProgressShow))
    (upstream : WatchedShow → TraktResult WatchedProgressShow) : List ProgressShow :=
  let showsList := watchedShows.map
    (fun s => progressSlot s (showTask now s watchedCache progressCache (upstream s)).watchedProgressShow)
  showsList.filterMap id

/-- The provider callback registry `callbacks` (`map[string]chan []byte`,
guarded by `cbLock`); an entry marks an outstanding correlation id. -/
structure CallbackRegistry where
  callbacks : String → Option Unit

/-- Embedding of `GetCallback`: registers a (fresh) correlation id. -/
def GetCallback (reg : CallbackRegistry) (cid : String) : CallbackRegistry :=
  ⟨fun k => if k = cid then some () else reg.callbacks k⟩

/-- Embedding of `RemoveCallback`: deletes the registry entry. -/
def RemoveCallback (reg : CallbackRegistry) (cid : String) : CallbackRegistry :=
  ⟨fun k => if k = cid then none else reg.callbacks k⟩

/-- Embedding of `CallbackHandler`: looks up the correlation id under the
registry lock; on a miss it returns with no write; on a hit it removes the
entry and writes the request body into the channel.  The second component is
the payload written (`none` when nothing was written). -/
def CallbackHandler (reg : CallbackRegistry) (cid : String) (body : String) :
    CallbackRegistry × Option String :=
  match reg.callbacks cid with
  | none => (reg, none)
  | some _ => (RemoveCallback reg cid, some body)

/-- A torrent result entry (`bittorrent.TorrentFile`, opaque payload from a
package outside the excerpted source). -/
structure TorrentFile where
  name : String
deriving DecidableEq

/-- The race inside `AddonSearcher.call`: either the timeout fires first, or
the callback payload arrives on the channel first. -/
inductive SelectOutcome where
  | timeout
  | arrived (result : String)

/-- Embedding of `AddonSearcher.call` (providers file): register a callback
id, dispatch to the addon, then block on the race between the timeout and the
result channel.  On timeout the registration is removed and the (still empty)
torrent list is returned.  On arrival the inbound `CallbackHandler` has
already removed the entry and delivered the payload, which is unmarshalled
(`decode`), an unmarshal failure leaving the list empty. -/
def addonSearcherCall (reg : CallbackRegistry) (cid : String)
    (decode : String → Option (List TorrentFile)) (outcome : SelectOutcome) :
    List TorrentFile × CallbackRegistry :=
  let torrents : List TorrentFile := []
  let reg1 := GetCallback reg cid
  match outcome with
  | .timeout => (torrents, RemoveCallback reg1 cid)
  | .arrived result =>
    let handled := CallbackHandler reg1 cid result
    ((decode result).getD torrents, handled.fst)

/-- Left cancellation for string concatenation, used for cache-key
disjointness arguments. -/
theorem string_append_left_cancel (s a b : String) (h : s ++ a = s ++ b) : a = b := by
  apply String.ext
  have h2 := congrArg String.data h
  rw [String.data_append, String.data_append] at h2
  exact List.append_cancel_left h2

/-- C9: `MakeRequest` triggers a rate-limiter cooldown not only on HTTP 429
but also on HTTP 404: for every request answered with status 404,
`rl.CoolDown` is invoked with the response headers and `util.ErrNotFound` is
returned, so a not-found answer engages the cooldown machinery exactly like a
429 rate-limit signal does. -/
theorem MakeRequest_404_cools_down (headers : Headers) :
    MakeRequest (.ok 404 headers) = ⟨some .ErrNotFound, some headers⟩ ∧
    (MakeRequest (.ok 404 headers)).coolDownHeaders =
      (MakeRequest (.ok 429 headers)).coolDownHeaders := by
  exact ⟨rfl, rfl⟩

/-- C8: when the timeout branch of `AddonSearcher.call` wins the race, the
callback registration is removed and the empty torrent list is returned; a
callback arriving afterwards finds no registry entry, so `CallbackHandler`
returns without writing and with the registry unchanged. -/
theorem addonSearcherCall_timeout_empty_and_late_noop
    (reg : CallbackRegistry) (cid : String)
    (decode : String → Option (List TorrentFile)) (body : String) :
    (addonSearcherCall reg cid decode .timeout).fst = [] ∧
    (addonSearcherCall reg cid decode .timeout).snd.callbacks cid = none ∧
    CallbackHandler (addonSearcherCall reg cid decode .timeout).snd cid body =
      ((addonSearcherCall reg cid decode .timeout).snd, none) := by
  refine ⟨rfl, ?_, ?_⟩
  · simp [addonSearcherCall, RemoveCallback]
  · simp [CallbackHandler, addonSearcherCall, RemoveCallback]

/-- C7: the list returned by `WatchedShowsProgress` contains exactly those
tracked shows whose computed progress has a non-nil next episode with
non-zero season and episode numbers, in the same relative order as the
watched-shows input list; every other show is silently dropped. -/
theorem WatchedShowsProgress_exactly_valid_in_order (now : Time)
    (watchedShows : List WatchedShow) (wc : CacheStore Int Time)
    (pc : CacheStore Int (Option WatchedProgressShow))
    (up : WatchedShow → TraktResult WatchedProgressShow) :
    WatchedShowsProgress now watchedShows wc pc up =
      (watchedShows.filter
        (fun s => validNext (showTask now s wc pc (up s)).watchedProgressShow)).map
        (fun s => ProgressShow.mk s.Show
          (Option.bind (showTask now s wc pc (up s)).watchedProgressShow
            (fun w => w.NextEpisode))) := by
  induction watchedShows with
  | nil => rfl
  | cons s rest ih =>
    simp only [WatchedShowsProgress, List.map_cons, List.filterMap_cons, List.filter_cons] at ih ⊢
    cases hv : validNext (showTask now s wc pc (up s)).watchedProgressShow with
    | false => simpa [progressSlot, hv] using ih
    | true => simpa [progressSlot, hv] using ih

/-- C3: for every requested page `p ≥ 1` parsed from the page string and
positive configured `resultsPerPage` and `PagesAtOnce`, the upstream page
number sent by `TopMovies` and `CalendarShows` equals
`(p-1)*resultsPerPage / (resultsPerPage*PagesAtOnce) + 1` in integer
arithmetic, which equals `(p-1)/PagesAtOnce + 1`. -/
theorem upstreamPage_translation (page : String) (p resultsPerPage pagesAtOnce : Int)
    (hparse : Atoi page = some p) (hp : 1 ≤ p)
    (hr : 0 < resultsPerPage) (hpa : 0 < pagesAtOnce) :
    upstreamPage p resultsPerPage (resultsPerPage * pagesAtOnce) =
      (p - 1) / pagesAtOnce + 1 ∧
    (∀ (now : Time) (topCategory : String) (upstream : TraktResult TopMoviesBody)
      (totalStore : CacheStore String Int),
      (TopMovies now topCategory page resultsPerPage pagesAtOnce upstream
        CacheStore.empty totalStore).sentPage = some ((p - 1) / pagesAtOnce + 1)) ∧
    (∀ (now : Time) (endPoint : String) (upstream : TraktResult (List CalendarShow))
      (totalStore : CacheStore String Int),
      (CalendarShows now endPoint page resultsPerPage pagesAtOnce upstream
        CacheStore.empty totalStore).sentPage = some ((p - 1) / pagesAtOnce + 1)) := by
  have hmain : upstreamPage p resultsPerPage (resultsPerPage * pagesAtOnce) =
      (p - 1) / pagesAtOnce + 1 := by
    unfold upstreamPage
    rw [Int.tdiv_eq_ediv (mul_nonneg (by omega) (le_of_lt hr)) (le_of_lt (mul_pos hr hpa)),
      mul_comm (p - 1) resultsPerPage, Int.mul_ediv_mul_of_pos _ _ hr]
  refine ⟨hmain, ?_, ?_⟩
  · intro now topCategory upstream totalStore
    cases upstream with
    | failure => simp [TopMovies, hparse, hmain]
    | ok status bodyOpt itemCount =>
      by_cases hs : status = 200 <;> simp [TopMovies, hparse, hmain, hs]
  · intro now endPoint upstream totalStore
    cases upstream with
    | failure => simp [CalendarShows, hparse, hmain]
    | ok status decoded itemCount =>
      by_cases hs : status = 200 <;> simp [CalendarShows, hparse, hmain, hs]

/-- Witness for C3 at page "7", resultsPerPage 20, PagesAtOnce 5. -/
theorem upstreamPage_translation_witness :
    Atoi "7" = some 7 ∧ (1 : Int) ≤ 7 ∧ (0 : Int) < 20 ∧ (0 : Int) < 5 ∧
    upstreamPage 7 20 (20 * 5) = ((7 : Int) - 1) / 5 + 1 ∧
    (TopMovies 3 "popular" "7" 20 5 .failure CacheStore.empty CacheStore.empty).sentPage =
      some (((7 : Int) - 1) / 5 + 1) ∧
    (CalendarShows 3 "shows/new" "7" 20 5 .failure CacheStore.empty CacheStore.empty).sentPage =
      some (((7 : Int) - 1) / 5 + 1) := by
  have h := upstreamPage_translation "7" 7 20 5 (by decide) (by decide) (by decide) (by decide)
  exact ⟨by decide, by decide, by decide, by decide, h.1,
    h.2.1 3 "popular" .failure CacheStore.empty,
    h.2.2 3 "shows/new" .failure CacheStore.empty⟩

/-- C2: a fetch without forceRefresh that finds an unexpired cache entry
returns the cached value with no upstream call (`GetMovie` hit path and
`WatchlistMovies` hit path), and two consecutive `GetMovie` fetches of the
same identity make exactly one upstream call, the second being served from
cache. -/
theorem cacheAside_idempotence :
    (∀ (now : Time) (ID : String) (m : Option Movie) (up : TraktResult Movie)
      (store : CacheStore String (Option Movie)),
      store.get now (TraktMovieKey ID) = some m →
      GetMovie now ID up store = ⟨m, store, false⟩) ∧
    (∀ (now now2 : Time) (ID : String) (up1 up2 : TraktResult Movie)
      (store : CacheStore String (Option Movie)),
      store.get now (TraktMovieKey ID) = none →
      now2 < now + TraktMovieExpire →
      (GetMovie now ID up1 store).upstreamCalled = true ∧
      (GetMovie now2 ID up2 (GetMovie now ID up1 store).store).upstreamCalled = false ∧
      (GetMovie now2 ID up2 (GetMovie now ID up1 store).store).movie =
        (GetMovie now ID up1 store).movie) ∧
    (∀ (now : Time) (upw : TraktResult (List WatchlistMovie)) (ms : List Movies)
      (wstore : CacheStore String (List Movies)),
      wstore.get now TraktMoviesWatchlistKey = some ms →
      WatchlistMovies now true false upw wstore = ⟨ms, none, wstore, false⟩) := by
  refine ⟨?_, ?_, ?_⟩
  · intro now ID m up store h
    simp [GetMovie, h]
  · intro now now2 ID up1 up2 store h ht
    simp [GetMovie, h, CacheStore.get_set_self, ht]
  · intro now upw ms wstore h
    simp [WatchlistMovies, h]

/-- Witness for C2: an empty store, a successful first fetch at time 0 and a
second fetch at time 1. -/
theorem cacheAside_idempotence_witness :
    ((CacheStore.empty : CacheStore String (Option Movie)).get 0 (TraktMovieKey "9") = none) ∧
    ((1 : Time) < 0 + TraktMovieExpire) ∧
    ((GetMovie 0 "9" (.ok 200 (some ⟨"X", 2001⟩) 0) CacheStore.empty).upstreamCalled = true ∧
      (GetMovie 1 "9" .failure
        (GetMovie 0 "9" (.ok 200 (some ⟨"X", 2001⟩) 0) CacheStore.empty).store).upstreamCalled
        = false ∧
      (GetMovie 1 "9" .failure
        (GetMovie 0 "9" (.ok 200 (some ⟨"X", 2001⟩) 0) CacheStore.empty).store).movie =
        (GetMovie 0 "9" (.ok 200 (some ⟨"X", 2001⟩) 0) CacheStore.empty).movie) :=
  ⟨rfl, by decide, cacheAside_idempotence.2.1 0 1 "9" _ .failure CacheStore.empty rfl (by decide)⟩

/-- C1 counterexample: after `GetMovie`'s upstream request fails (here a 404
response), the cache entry for the movie's key is written, not left
unchanged, and the next fetch is served from cache (returning the cached nil)
instead of going upstream again. -/
theorem GetMovie_failure_caches_counterexample :
    (CacheStore.empty : CacheStore String (Option Movie)).lookup (TraktMovieKey "1") = none ∧
    (GetMovie 0 "1" (.ok 404 none 0) CacheStore.empty).store.lookup (TraktMovieKey "1") =
      some (none, 0 + TraktMovieExpire) ∧
    (GetMovie 1 "1" (.ok 200 (some ⟨"X", 2001⟩) 0)
      (GetMovie 0 "1" (.ok 404 none 0) CacheStore.empty).store).upstreamCalled = false ∧
    (GetMovie 1 "1" (.ok 200 (some ⟨"X", 2001⟩) 0)
      (GetMovie 0 "1" (.ok 404 none 0) CacheStore.empty).store).movie = none := by
  refine ⟨rfl, ?_, ?_, ?_⟩ <;> decide

/-- C1 amended: `GetShow` returns without writing to the cache on a
transport error; but neither fetcher checks the HTTP status, and `GetMovie`
does not return even on transport error: on a cache miss `GetMovie` always
writes the unmarshalled value (nil after any failure) under the movie's key,
so a later fetch within the TTL is served that cached failure without an
upstream call. -/
theorem GetMovie_failure_caches_amended :
    (∀ (now : Time) (ID : String) (store : CacheStore String (Option Show)),
      store.get now (TraktShowKey ID) = none →
      (GetShow now ID .failure store).store = store ∧
      (GetShow now ID .failure store).result = none ∧
      (GetShow now ID .failure store).upstreamCalled = true) ∧
    (∀ (now : Time) (ID : String) (up : TraktResult Movie)
      (store : CacheStore String (Option Movie)),
      store.get now (TraktMovieKey ID) = none →
      (GetMovie now ID up store).store.lookup (TraktMovieKey ID) =
        some ((GetMovie now ID up store).movie, now + TraktMovieExpire)) ∧
    (∀ (now now2 : Time) (ID : String) (up up2 : TraktResult Movie)
      (store : CacheStore String (Option Movie)),
      store.get now (TraktMovieKey ID) = none →
      now2 < now + TraktMovieExpire →
      (GetMovie now2 ID up2 (GetMovie now ID up store).store).upstreamCalled = false) := by
  refine ⟨?_, ?_, ?_⟩
  · intro now ID store h
    simp [GetShow, h]
  · intro now ID up store h
    simp [GetMovie, h]
  · intro now now2 ID up up2 store h ht
    simp [GetMovie, h, CacheStore.get_set_self, ht]

/-- Witness for the amended C1 at concrete inputs. -/
theorem GetMovie_failure_caches_amended_witness :
    ((CacheStore.empty : CacheStore String (Option Show)).get 2 (TraktShowKey "5") = none) ∧
    ((CacheStore.empty : CacheStore String (Option Movie)).get 2 (TraktMovieKey "5") = none) ∧
    ((3 : Time) < 2 + TraktMovieExpire) ∧
    ((GetShow 2 "5" .failure CacheStore.empty).store =
      (CacheStore.empty : CacheStore String (Option Show)) ∧
      (GetShow 2 "5" .failure CacheStore.empty).result = none ∧
      (GetShow 2 "5" .failure CacheStore.empty).upstreamCalled = true) ∧
    ((GetMovie 2 "5" .failure CacheStore.empty).store.lookup (TraktMovieKey "5") =
      some ((GetMovie 2 "5" .failure CacheStore.empty).movie, 2 + TraktMovieExpire)) ∧
    ((GetMovie 3 "5" (.ok 200 (some ⟨"Y", 1999⟩) 0)
      (GetMovie 2 "5" .failure CacheStore.empty).store).upstreamCalled = false) :=
  ⟨rfl, rfl, by decide,
    GetMovie_failure_caches_amended.1 2 "5" CacheStore.empty rfl,
    GetMovie_failure_caches_amended.2.1 2 "5" .failure CacheStore.empty rfl,
    GetMovie_failure_caches_amended.2.2 2 3 "5" .failure _ CacheStore.empty rfl (by decide)⟩

/-- C10: `TopMovies` and `TopShows` treat a cached empty list as a miss:
a page-cache hit whose value has length zero still queries upstream, a 200
response overwrites the page entry with the returned listing, and any result
that is served without an upstream call is nonempty — so an upstream
response with zero items is never served from cache. -/
theorem topListings_empty_cache_is_miss :
    (∀ (now : Time) (topCategory page : String) (p resultsPerPage pagesAtOnce : Int)
      (up : TraktResult TopMoviesBody) (store : CacheStore String (List Movies))
      (totalStore : CacheStore String Int),
      Atoi page = some p →
      store.get now (TraktMoviesByCategoryKey topCategory
        (toString (upstreamPage p resultsPerPage (resultsPerPage * pagesAtOnce)))) = some [] →
      (TopMovies now topCategory page resultsPerPage pagesAtOnce up store
        totalStore).upstreamCalled = true) ∧
    (∀ (now : Time) (topCategory page : String) (p resultsPerPage pagesAtOnce : Int)
      (up : TraktResult TopMoviesBody) (store : CacheStore String (List Movies))
      (totalStore : CacheStore String Int),
      Atoi page = some p →
      (TopMovies now topCategory page resultsPerPage pagesAtOnce up store
        totalStore).upstreamCalled = false →
      (TopMovies now topCategory page resultsPerPage pagesAtOnce up store
        totalStore).movies.length ≠ 0) ∧
    (∀ (now : Time) (topCategory page : String) (p resultsPerPage pagesAtOnce : Int)
      (bodyOpt : Option TopMoviesBody) (itemCount : Int)
      (store : CacheStore String (List Movies)) (totalStore : CacheStore String Int),
      Atoi page = some p →
      store.get now (TraktMoviesByCategoryKey topCategory
        (toString (upstreamPage p resultsPerPage (resultsPerPage * pagesAtOnce)))) = some [] →
      (TopMovies now topCategory page resultsPerPage pagesAtOnce (.ok 200 bodyOpt itemCount)
        store totalStore).store.lookup (TraktMoviesByCategoryKey topCategory
          (toString (upstreamPage p resultsPerPage (resultsPerPage * pagesAtOnce)))) =
        some ((TopMovies now topCategory page resultsPerPage pagesAtOnce
          (.ok 200 bodyOpt itemCount) store totalStore).movies,
          now + TraktMoviesByCategoryExpire)) ∧
    (∀ (now : Time) (topCategory page : String) (p resultsPerPage pagesAtOnce : Int)
      (up : TraktResult TopShowsBody) (store : CacheStore String (List Shows))
      (totalStore : CacheStore String Int),
      Atoi page = some p →
      store.get now (TraktShowsByCategoryKey topCategory
        (toString (upstreamPage p resultsPerPage (resultsPerPage * pagesAtOnce)))) = some [] →
      (TopShows now topCategory page resultsPerPage pagesAtOnce up store
        totalStore).upstreamCalled = true) ∧
    (∀ (now : Time) (topCategory page : String) (p resultsPerPage pagesAtOnce : Int)
      (up : TraktResult TopShowsBody) (store : CacheStore String (List Shows))
      (totalStore : CacheStore String Int),
      Atoi page = some p →
      (TopShows now topCategory page resultsPerPage pagesAtOnce up store
        totalStore).upstreamCalled = false →
      (TopShows now topCategory page resultsPerPage pagesAtOnce up store
        totalStore).shows.length ≠ 0) := by
  refine ⟨?_, ?_, ?_, ?_, ?_⟩
  · intro now topCategory page p resultsPerPage pagesAtOnce up store totalStore hp hget
    cases up with
    | failure => simp [TopMovies, hp, hget]
    | ok status bodyOpt itemCount =>
      by_cases hs : status = 200 <;> simp [TopMovies, hp, hget, hs]
  · intro now topCategory page p resultsPerPage pagesAtOnce up store totalStore hp hcalled
    revert hcalled
    simp only [TopMovies, hp]
    cases hget : store.get now (TraktMoviesByCategoryKey topCategory
        (toString (upstreamPage p resultsPerPage (resultsPerPage * pagesAtOnce)))) with
    | none =>
      cases up with
      | failure => simp
      | ok status bodyOpt itemCount => by_cases hs : status = 200 <;> simp [hs]
    | some ms =>
      by_cases hlen : ms.length = 0
      · cases up with
        | failure => simp [hlen]
        | ok status bodyOpt itemCount => by_cases hs : status = 200 <;> simp [hlen, hs]
      · simp [hlen]
  · intro now topCategory page p resultsPerPage pagesAtOnce bodyOpt itemCount store totalStore hp hget
    simp [TopMovies, hp, hget]
  · intro now topCategory page p resultsPerPage pagesAtOnce up store totalStore hp hget
    cases up with
    | failure => simp [TopShows, hp, hget]
    | ok status bodyOpt itemCount =>
      by_cases hs : status = 200 <;>
        by_cases hc : topCategory = "popular" ∨ topCategory = "recommendations" <;>
          cases hb : (bodyOpt.getD ⟨none, none⟩).showList <;>
            simp [TopShows, hp, hget, hs, hc, hb]
  · intro now topCategory page p resultsPerPage pagesAtOnce up store totalStore hp hcalled
    revert hcalled
    simp only [TopShows, hp]
    cases hget : store.get now (TraktShowsByCategoryKey topCategory
        (toString (upstreamPage p resultsPerPage (resultsPerPage * pagesAtOnce)))) with
    | none =>
      cases up with
      | failure => simp
      | ok status bodyOpt itemCount =>
        by_cases hs : status = 200 <;>
          by_cases hc : topCategory = "popular" ∨ topCategory = "recommendations" <;>
            cases hb : (bodyOpt.getD ⟨none, none⟩).showList <;> simp [hs, hc, hb]
    | some ss =>
      by_cases hlen : ss.length = 0
      · cases up with
        | failure => simp [hlen]
        | ok status bodyOpt itemCount =>
          by_cases hs : status = 200 <;>
            by_cases hc : topCategory = "popular" ∨ topCategory = "recommendations" <;>
              cases hb : (bodyOpt.getD ⟨none, none⟩).showList <;> simp [hlen, hs, hc, hb]
      · simp [hlen]

/-- Witness for C10: a store holding an empty list under the page key. -/
theorem topListings_empty_cache_is_miss_witness :
    (((CacheStore.empty : CacheStore String (List Movies)).set 0
        (TraktMoviesByCategoryKey "trending" (toString (upstreamPage 1 20 (20 * 5)))) []
        TraktMoviesByCategoryExpire).get 0
        (TraktMoviesByCategoryKey "trending" (toString (upstreamPage 1 20 (20 * 5)))) =
      some []) ∧
    Atoi "1" = some 1 ∧
    ((TopMovies 0 "trending" "1" 20 5 .failure
      ((CacheStore.empty : CacheStore String (List Movies)).set 0
        (TraktMoviesByCategoryKey "trending" (toString (upstreamPage 1 20 (20 * 5)))) []
        TraktMoviesByCategoryExpire) CacheStore.empty).upstreamCalled = true) := by
  refine ⟨by decide, by decide, ?_⟩
  exact topListings_empty_cache_is_miss.1 0 "trending" "1" 1 20 5 .failure _ CacheStore.empty
    (by decide) (by decide)

/-- C4 counterexample: with a batching factor of 5 (PagesAtOnce, modelled
from the spec) and 20 results per page, `TopMovies` computes the same cache
key for client pages 1 and 2 of the same category, and a fetch of page 2
is served entirely from the entry written by the fetch of page 1. -/
theorem topMovies_page_key_collision_counterexample :
    (TopMovies 0 "trending" "1" 20 5 (.ok 200 (some ⟨none, some [⟨some ⟨"A", 2000⟩⟩]⟩) 1)
      CacheStore.empty CacheStore.empty).usedKey =
      (TopMovies 0 "trending" "2" 20 5 .failure
        (TopMovies 0 "trending" "1" 20 5 (.ok 200 (some ⟨none, some [⟨some ⟨"A", 2000⟩⟩]⟩) 1)
          CacheStore.empty CacheStore.empty).store
        (TopMovies 0 "trending" "1" 20 5 (.ok 200 (some ⟨none, some [⟨some ⟨"A", 2000⟩⟩]⟩) 1)
          CacheStore.empty CacheStore.empty).totalStore).usedKey ∧
    (TopMovies 0 "trending" "2" 20 5 .failure
      (TopMovies 0 "trending" "1" 20 5 (.ok 200 (some ⟨none, some [⟨some ⟨"A", 2000⟩⟩]⟩) 1)
        CacheStore.empty CacheStore.empty).store
      (TopMovies 0 "trending" "1" 20 5 (.ok 200 (some ⟨none, some [⟨some ⟨"A", 2000⟩⟩]⟩) 1)
        CacheStore.empty CacheStore.empty).totalStore).upstreamCalled = false ∧
    (TopMovies 0 "trending" "2" 20 5 .failure
      (TopMovies 0 "trending" "1" 20 5 (.ok 200 (some ⟨none, some [⟨some ⟨"A", 2000⟩⟩]⟩) 1)
        CacheStore.empty CacheStore.empty).store
      (TopMovies 0 "trending" "1" 20 5 (.ok 200 (some ⟨none, some [⟨some ⟨"A", 2000⟩⟩]⟩) 1)
        CacheStore.empty CacheStore.empty).totalStore).movies =
      (TopMovies 0 "trending" "1" 20 5 (.ok 200 (some ⟨none, some [⟨some ⟨"A", 2000⟩⟩]⟩) 1)
        CacheStore.empty CacheStore.empty).movies := by
  refine ⟨?_, ?_, ?_⟩ <;> decide

/-- C4 amended: the cache key computed by `TopMovies` determines and is
determined by the translated upstream page (for a fixed category the key is
injective in the page string); consequently client pages translating to the
same upstream page — by design all pages served by one upstream fetch, such
as pages 1 and 2 when PagesAtOnce is 5 — share one cache entry, while pages
translating to different upstream pages (such as 1 and 6) have distinct
keys. -/
theorem topMovies_key_disjointness_amended :
    (∀ (topCategory a b : String),
      TraktMoviesByCategoryKey topCategory a = TraktMoviesByCategoryKey topCategory b → a = b) ∧
    TraktMoviesByCategoryKey "trending" (toString (upstreamPage 1 20 (20 * 5))) =
      TraktMoviesByCategoryKey "trending" (toString (upstreamPage 2 20 (20 * 5))) ∧
    decide (TraktMoviesByCategoryKey "trending" (toString (upstreamPage 1 20 (20 * 5))) =
      TraktMoviesByCategoryKey "trending" (toString (upstreamPage 6 20 (20 * 5)))) = false := by
  refine ⟨?_, by decide, by decide⟩
  intro topCategory a b h
  exact string_append_left_cancel _ _ _ h

/-- Witness for the amended C4: the injectivity direction applied at a
concrete key equality. -/
theorem topMovies_key_disjointness_amended_witness :
    (TraktMoviesByCategoryKey "trending" "1" = TraktMoviesByCategoryKey "trending" "1") ∧
    ("1" : String) = "1" :=
  ⟨rfl, topMovies_key_disjointness_amended.1 "trending" "1" "1" rfl⟩

/-- C5 counterexample: in a per-show task whose snapshot is stale (cached 3,
current 5), the upstream progress call is made but fails; the derived-pointer
cache entry is then left unchanged, contradicting "both the snapshot and the
derived-pointer cache entries are overwritten" on the refresh path. -/
theorem showTask_refresh_failure_counterexample :
    (showTask 0 ⟨⟨"S", ⟨7, 0⟩⟩, 5⟩
      ((CacheStore.empty : CacheStore Int Time).set 0 7 3 100)
      ((CacheStore.empty : CacheStore Int (Option WatchedProgressShow)).set 0 7
        (some ⟨some ⟨2, 3⟩⟩) 100)
      .failure).upstreamCalled = true ∧
    (showTask 0 ⟨⟨"S", ⟨7, 0⟩⟩, 5⟩
      ((CacheStore.empty : CacheStore Int Time).set 0 7 3 100)
      ((CacheStore.empty : CacheStore Int (Option WatchedProgressShow)).set 0 7
        (some ⟨some ⟨2, 3⟩⟩) 100)
      .failure).progressCache.lookup 7 = some (some ⟨some ⟨2, 3⟩⟩, 0 + 100) := by
  exact ⟨by decide, by decide⟩

/-- C5 amended: when the current `LastWatchedAt` equals the cached snapshot
and the cached derived-progress entry is readable, no upstream progress call
is made and the cached pointer is returned, the caches apart from the
re-written snapshot being untouched; otherwise the upstream endpoint is
called and the snapshot is overwritten, but the derived-pointer entry is
overwritten only when the call returns status 200 — on a transport error or
a non-200 response it is left unchanged. -/
theorem showTask_staleness_amended :
    (∀ (now : Time) (ws : WatchedShow) (wc : CacheStore Int Time)
      (pc : CacheStore Int (Option WatchedProgressShow))
      (up : TraktResult WatchedProgressShow) (p : Option WatchedProgressShow),
      wc.get now ws.Show.IDs.Trakt = some ws.LastWatchedAt →
      pc.get now ws.Show.IDs.Trakt = some p →
      showTask now ws wc pc up =
        ⟨p, wc.set now ws.Show.IDs.Trakt ws.LastWatchedAt
          TraktWatchedShowsProgressWatchedExpire, pc, false⟩) ∧
    (∀ (now : Time) (ws : WatchedShow) (wc : CacheStore Int Time)
      (pc : CacheStore Int (Option WatchedProgressShow))
      (up : TraktResult WatchedProgressShow),
      (wc.get now ws.Show.IDs.Trakt = some ws.LastWatchedAt →
        pc.get now ws.Show.IDs.Trakt = none) →
      (showTask now ws wc pc up).upstreamCalled = true ∧
      (showTask now ws wc pc up).watchedCache.lookup ws.Show.IDs.Trakt =
        some (ws.LastWatchedAt, now + TraktWatchedShowsProgressWatchedExpire) ∧
      (∀ (d : Option WatchedProgressShow) (c : Int), up = .ok 200 d c →
        (showTask now ws wc pc up).progressCache.lookup ws.Show.IDs.Trakt =
          some (d, now + TraktWatchedShowsProgressExpire)) ∧
      (up = .failure → (showTask now ws wc pc up).progressCache = pc) ∧
      (∀ (status : Nat) (d : Option WatchedProgressShow) (c : Int),
        up = .ok status d c → status ≠ 200 →
        (showTask now ws wc pc up).progressCache = pc)) := by
  constructor
  · intro now ws wc pc up p hw hpget
    simp [showTask, hw, hpget]
  · intro now ws wc pc up hmiss
    have hreuse : (match wc.get now ws.Show.IDs.Trakt with
        | some cachedWatchedAt =>
          if ws.LastWatchedAt = cachedWatchedAt then pc.get now ws.Show.IDs.Trakt else none
        | none => (none : Option (Option WatchedProgressShow))) = none := by
      cases hw : wc.get now ws.Show.IDs.Trakt with
      | none => rfl
      | some t =>
        by_cases he : ws.LastWatchedAt = t
        · subst he
          simp [hmiss hw]
        · simp [he]
    cases up with
    | failure =>
      refine ⟨?_, ?_, ?_, ?_, ?_⟩ <;> simp [showTask, hreuse]
    | ok status decoded itemCount =>
      refine ⟨?_, ?_, ?_, ?_, ?_⟩
      · by_cases hs : status = 200 <;> simp [showTask, hreuse, hs]
      · by_cases hs : status = 200 <;> simp [showTask, hreuse, hs]
      · intro d c h
        cases h
        simp [showTask, hreuse]
      · intro h
        cases h
      · intro status2 d c h hs
        cases h
        simp [showTask, hreuse, hs]

/-- Witness for the amended C5: a reuse instance and a refresh instance. -/
theorem showTask_staleness_amended_witness :
    (((CacheStore.empty : CacheStore Int Time).set 0 4 5 100).get 0 4 = some 5) ∧
    (((CacheStore.empty : CacheStore Int (Option WatchedProgressShow)).set 0 4
      (some ⟨some ⟨1, 2⟩⟩) 100).get 0 4 = some (some ⟨some ⟨1, 2⟩⟩)) ∧
    (showTask 0 ⟨⟨"T", ⟨4, 0⟩⟩, 5⟩
      ((CacheStore.empty : CacheStore Int Time).set 0 4 5 100)
      ((CacheStore.empty : CacheStore Int (Option WatchedProgressShow)).set 0 4
        (some ⟨some ⟨1, 2⟩⟩) 100) .failure =
      ⟨some ⟨some ⟨1, 2⟩⟩,
        ((CacheStore.empty : CacheStore Int Time).set 0 4 5 100).set 0 4 5
          TraktWatchedShowsProgressWatchedExpire,
        (CacheStore.empty : CacheStore Int (Option WatchedProgressShow)).set 0 4
          (some ⟨some ⟨1, 2⟩⟩) 100, false⟩) ∧
    ((showTask 1 ⟨⟨"T", ⟨4, 0⟩⟩, 5⟩ CacheStore.empty CacheStore.empty
      (.ok 200 (some ⟨some ⟨1, 2⟩⟩) 0)).upstreamCalled = true ∧
     (showTask 1 ⟨⟨"T", ⟨4, 0⟩⟩, 5⟩ CacheStore.empty CacheStore.empty
      (.ok 200 (some ⟨some ⟨1, 2⟩⟩) 0)).watchedCache.lookup 4 =
        some (5, 1 + TraktWatchedShowsProgressWatchedExpire) ∧
     (showTask 1 ⟨⟨"T", ⟨4, 0⟩⟩, 5⟩ CacheStore.empty CacheStore.empty
      (.ok 200 (some ⟨some ⟨1, 2⟩⟩) 0)).progressCache.lookup 4 =
        some (some ⟨some ⟨1, 2⟩⟩, 1 + TraktWatchedShowsProgressExpire)) ∧
    (decide ((503 : Nat) = 200) = false ∧
     (showTask 1 ⟨⟨"T", ⟨4, 0⟩⟩, 5⟩ CacheStore.empty CacheStore.empty
      (.ok 503 none 0)).progressCache =
        (CacheStore.empty : CacheStore Int (Option WatchedProgressShow))) := by
  refine ⟨by decide, by decide, ?_, ⟨?_, ?_, ?_⟩, by decide, ?_⟩
  · exact showTask_staleness_amended.1 0 ⟨⟨"T", ⟨4, 0⟩⟩, 5⟩ _ _ .failure
      (some ⟨some ⟨1, 2⟩⟩) (by decide) (by decide)
  · exact (showTask_staleness_amended.2 1 ⟨⟨"T", ⟨4, 0⟩⟩, 5⟩ CacheStore.empty CacheStore.empty
      (.ok 200 (some ⟨some ⟨1, 2⟩⟩) 0) (fun h => rfl)).1
  · exact (showTask_staleness_amended.2 1 ⟨⟨"T", ⟨4, 0⟩⟩, 5⟩ CacheStore.empty CacheStore.empty
      (.ok 200 (some ⟨some ⟨1, 2⟩⟩) 0) (fun h => rfl)).2.1
  · exact (showTask_staleness_amended.2 1 ⟨⟨"T", ⟨4, 0⟩⟩, 5⟩ CacheStore.empty CacheStore.empty
      (.ok 200 (some ⟨some ⟨1, 2⟩⟩) 0) (fun h => rfl)).2.2.1 _ 0 rfl
  · exact (showTask_staleness_amended.2 1 ⟨⟨"T", ⟨4, 0⟩⟩, 5⟩ CacheStore.empty CacheStore.empty
      (.ok 503 none 0) (fun h => rfl)).2.2.2.2 503 none 0 rfl (by decide)

/-- C6 counterexample: a per-show refresh whose upstream call fails still
advances the snapshot, so the next synchronization reuses the stale derived
pointer with zero upstream calls even though upstream now holds a different
progress value — a missed update, contradicting "never a missed update of
the derived next-episode pointer". -/
theorem showTask_missed_update_counterexample :
    (showTask 0 ⟨⟨"U", ⟨8, 0⟩⟩, 6⟩
      ((CacheStore.empty : CacheStore Int Time).set 0 8 2 100)
      ((CacheStore.empty : CacheStore Int (Option WatchedProgressShow)).set 0 8
        (some ⟨some ⟨2, 3⟩⟩) 100)
      .failure).upstreamCalled = true ∧
    (showTask 1 ⟨⟨"U", ⟨8, 0⟩⟩, 6⟩
      (showTask 0 ⟨⟨"U", ⟨8, 0⟩⟩, 6⟩
        ((CacheStore.empty : CacheStore Int Time).set 0 8 2 100)
        ((CacheStore.empty : CacheStore Int (Option WatchedProgressShow)).set 0 8
          (some ⟨some ⟨2, 3⟩⟩) 100) .failure).watchedCache
      (showTask 0 ⟨⟨"U", ⟨8, 0⟩⟩, 6⟩
        ((CacheStore.empty : CacheStore Int Time).set 0 8 2 100)
        ((CacheStore.empty : CacheStore Int (Option WatchedProgressShow)).set 0 8
          (some ⟨some ⟨2, 3⟩⟩) 100) .failure).progressCache
      (.ok 200 (some ⟨some ⟨9, 9⟩⟩) 0)).upstreamCalled = false ∧
    (showTask 1 ⟨⟨"U", ⟨8, 0⟩⟩, 6⟩
      (showTask 0 ⟨⟨"U", ⟨8, 0⟩⟩, 6⟩
        ((CacheStore.empty : CacheStore Int Time).set 0 8 2 100)
        ((CacheStore.empty : CacheStore Int (Option WatchedProgressShow)).set 0 8
          (some ⟨some ⟨2, 3⟩⟩) 100) .failure).watchedCache
      (showTask 0 ⟨⟨"U", ⟨8, 0⟩⟩, 6⟩
        ((CacheStore.empty : CacheStore Int Time).set 0 8 2 100)
        ((CacheStore.empty : CacheStore Int (Option WatchedProgressShow)).set 0 8
          (some ⟨some ⟨2, 3⟩⟩) 100) .failure).progressCache
      (.ok 200 (some ⟨some ⟨9, 9⟩⟩) 0)).watchedProgressShow = some ⟨some ⟨2, 3⟩⟩ ∧
    decide ((some (WatchedProgressShow.mk (some ⟨2, 3⟩)) : Option WatchedProgressShow) =
      some (WatchedProgressShow.mk (some ⟨9, 9⟩))) = false := by
  refine ⟨by decide, by decide, by decide, by decide⟩

/-- C6 amended: every per-item refresh task writes the item's current
`LastWatchedAt` snapshot to cache regardless of the path taken (reuse,
upstream success, or upstream failure); however this does not make the
comparison fully self-correcting — after a task whose upstream call failed,
the snapshot has been advanced while the derived pointer was not, so the next
synchronization reuses the stale pointer with zero upstream calls (a missed
update until the pointer entry expires), not merely one extra avoidable
call. -/
theorem showTask_snapshot_always_written_amended :
    (∀ (now : Time) (ws : WatchedShow) (wc : CacheStore Int Time)
      (pc : CacheStore Int (Option WatchedProgressShow))
      (up : TraktResult WatchedProgressShow),
      (showTask now ws wc pc up).watchedCache.lookup ws.Show.IDs.Trakt =
        some (ws.LastWatchedAt, now + TraktWatchedShowsProgressWatchedExpire)) ∧
    (∀ (now now2 : Time) (ws : WatchedShow) (wc : CacheStore Int Time)
      (pc : CacheStore Int (Option WatchedProgressShow))
      (P0 : Option WatchedProgressShow) (up2 : TraktResult WatchedProgressShow),
      wc.get now ws.Show.IDs.Trakt ≠ some ws.LastWatchedAt →
      now2 < now + TraktWatchedShowsProgressWatchedExpire →
      pc.get now2 ws.Show.IDs.Trakt = some P0 →
      (showTask now ws wc pc .failure).upstreamCalled = true ∧
      (showTask now2 ws (showTask now ws wc pc .failure).watchedCache
        (showTask now ws wc pc .failure).progressCache up2).upstreamCalled = false ∧
      (showTask now2 ws (showTask now ws wc pc .failure).watchedCache
        (showTask now ws wc pc .failure).progressCache up2).watchedProgressShow = P0) := by
  constructor
  · intro now ws wc pc up
    have hset : ∀ (pcx : CacheStore Int (Option WatchedProgressShow))
        (wps : Option WatchedProgressShow) (called : Bool),
        (ShowTaskOut.mk wps (wc.set now ws.Show.IDs.Trakt ws.LastWatchedAt
          TraktWatchedShowsProgressWatchedExpire) pcx called).watchedCache.lookup
            ws.Show.IDs.Trakt =
          some (ws.LastWatchedAt, now + TraktWatchedShowsProgressWatchedExpire) := by
      intro pcx wps called
      simp
    unfold showTask
    cases hreuse : (match wc.get now ws.Show.IDs.Trakt with
        | some cachedWatchedAt =>
          if ws.LastWatchedAt = cachedWatchedAt then pc.get now ws.Show.IDs.Trakt else none
        | none => (none : Option (Option WatchedProgressShow))) with
    | some p => simp [hreuse]
    | none =>
      cases up with
      | failure => simp [hreuse]
      | ok status decoded itemCount => by_cases hs : status = 200 <;> simp [hreuse, hs]
  · intro now now2 ws wc pc P0 up2 hstale ht hp0
    have hreuse1 : (match wc.get now ws.Show.IDs.Trakt with
        | some cachedWatchedAt =>
          if ws.LastWatchedAt = cachedWatchedAt then pc.get now ws.Show.IDs.Trakt else none
        | none => (none : Option (Option WatchedProgressShow))) = none := by
      cases hw : wc.get now ws.Show.IDs.Trakt with
      | none => rfl
      | some t =>
        by_cases he : ws.LastWatchedAt = t
        · exact absurd (he ▸ hw) hstale
        · simp [he]
    have hrun1 : showTask now ws wc pc .failure =
        ⟨none, wc.set now ws.Show.IDs.Trakt ws.LastWatchedAt
          TraktWatchedShowsProgressWatchedExpire, pc, true⟩ := by
      simp [showTask, hreuse1]
    rw [hrun1]
    have hw2 : (wc.set now ws.Show.IDs.Trakt ws.LastWatchedAt
        TraktWatchedShowsProgressWatchedExpire).get now2 ws.Show.IDs.Trakt =
        some ws.LastWatchedAt := by
      simp [CacheStore.get_set_self, ht]
    refine ⟨rfl, ?_, ?_⟩ <;> simp [showTask, hw2, hp0]

/-- Witness for the amended C6 at concrete inputs. -/
theorem showTask_snapshot_always_written_amended_witness :
    ((CacheStore.empty : CacheStore Int Time).get 0 11 ≠ some 6) ∧
    ((1 : Time) < 0 + TraktWatchedShowsProgressWatchedExpire) ∧
    (((CacheStore.empty : CacheStore Int (Option WatchedProgressShow)).set 0 11
      (some ⟨some ⟨4, 4⟩⟩) 100).get 1 11 = some (some ⟨some ⟨4, 4⟩⟩)) ∧
    ((showTask 2 ⟨⟨"V", ⟨11, 0⟩⟩, 6⟩ CacheStore.empty CacheStore.empty
      .failure).watchedCache.lookup 11 =
      some (6, 2 + TraktWatchedShowsProgressWatchedExpire)) ∧
    ((showTask 0 ⟨⟨"V", ⟨11, 0⟩⟩, 6⟩ CacheStore.empty
      ((CacheStore.empty : CacheStore Int (Option WatchedProgressShow)).set 0 11
        (some ⟨some ⟨4, 4⟩⟩) 100) .failure).upstreamCalled = true ∧
     (showTask 1 ⟨⟨"V", ⟨11, 0⟩⟩, 6⟩
      (showTask 0 ⟨⟨"V", ⟨11, 0⟩⟩, 6⟩ CacheStore.empty
        ((CacheStore.empty : CacheStore Int (Option WatchedProgressShow)).set 0 11
          (some ⟨some ⟨4, 4⟩⟩) 100) .failure).watchedCache
      (showTask 0 ⟨⟨"V", ⟨11, 0⟩⟩, 6⟩ CacheStore.empty
        ((CacheStore.empty : CacheStore Int (Option WatchedProgressShow)).set 0 11
          (some ⟨some ⟨4, 4⟩⟩) 100) .failure).progressCache .failure).upstreamCalled = false ∧
     (showTask 1 ⟨⟨"V", ⟨11, 0⟩⟩, 6⟩
      (showTask 0 ⟨⟨"V", ⟨11, 0⟩⟩, 6⟩ CacheStore.empty
        ((CacheStore.empty : CacheStore Int (Option WatchedProgressShow)).set 0 11
          (some ⟨some ⟨4, 4⟩⟩) 100) .failure).watchedCache
      (showTask 0 ⟨⟨"V", ⟨11, 0⟩⟩, 6⟩ CacheStore.empty
        ((CacheStore.empty : CacheStore Int (Option WatchedProgressShow)).set 0 11
          (some ⟨some ⟨4, 4⟩⟩) 100) .failure).progressCache .failure).watchedProgressShow =
        some ⟨some ⟨4, 4⟩⟩) := by
  refine ⟨by decide, by decide, by decide,
    showTask_snapshot_always_written_amended.1 2 ⟨⟨"V", ⟨11, 0⟩⟩, 6⟩ CacheStore.empty
      CacheStore.empty .failure, ?_⟩
  exact showTask_snapshot_always_written_amended.2 0 1 ⟨⟨"V", ⟨11, 0⟩⟩, 6⟩ CacheStore.empty
    ((CacheStore.empty : CacheStore Int (Option WatchedProgressShow)).set 0 11
      (some ⟨some ⟨4, 4⟩⟩) 100) (some ⟨some ⟨4, 4⟩⟩) .failure
    (by decide) (by decide) (by decide)

end Elementum
